import Mathlib

/-!
Verification of the packaging manifest of `pip-tools-compile` (setup.py).

The source is a single declarative `setup(...)` call:

    setup(
        name='pip-tools-compile',
        version='1.0',
        install_requires=[
            'six',
            'pip-tools==3.6.1',
            'pip==19.3.1',
            'mock>=2.0.0; python_version < \'3\''
        ],
        scripts=['pip-tools-compile'])

We embed the manifest record with its literal requirement strings, give an
executable parser for the PEP 508 requirement-string fragment the manifest
uses (name, version specifiers `==` / `>=` / ..., and an optional
`python_version` environment marker), give the marker/specifier semantics
over version tuples, and model the external install/evaluation operations
the spec describes.
-/

namespace PipToolsCompile

/-- The package manifest record: the keyword arguments of the `setup(...)`
call in setup.py. -/
structure Manifest where
  name : String
  version : String
  install_requires : List String
  scripts : List String
  deriving Repr, DecidableEq

/-- The `setup(...)` call of setup.py, with its literal arguments. -/
def setupManifest : Manifest :=
  { name := "pip-tools-compile"
  , version := "1.0"
  , install_requires :=
      [ "six"
      , "pip-tools==3.6.1"
      , "pip==19.3.1"
      , "mock>=2.0.0; python_version < \x273\x27" ]
  , scripts := ["pip-tools-compile"] }

/-! ## Version tuples and their order

PEP 440 release versions, as compared by the environment-marker and
specifier semantics, are dotted numeric tuples; trailing zeros are
insignificant (`3.0 == 3`). -/

/-- Strict order on version tuples: zero-padded lexicographic comparison. -/
def verLt : List Nat → List Nat → Bool
  | [], b => b.any fun y => 0 < y
  | _ :: _, [] => false
  | x :: xs, y :: ys => if x < y then true else if y < x then false else verLt xs ys

/-- Version-tuple equality: zero-padded componentwise equality. -/
def verEq (a b : List Nat) : Bool :=
  !verLt a b && !verLt b a

/-! ## Requirement strings (PEP 508 fragment) -/

/-- A version-comparison operator appearing in a specifier or marker. -/
inductive CompOp where
  | eq
  | ne
  | lt
  | le
  | gt
  | ge
  deriving Repr, DecidableEq

/-- Evaluate a comparison operator on version tuples. -/
def evalCompOp : CompOp → List Nat → List Nat → Bool
  | .eq, a, b => verEq a b
  | .ne, a, b => !verEq a b
  | .lt, a, b => verLt a b
  | .le, a, b => !verLt b a
  | .gt, a, b => verLt b a
  | .ge, a, b => !verLt a b

/-- An environment marker of the form `python_version OP 'X.Y'`: the only
marker shape the manifest uses. -/
structure Marker where
  op : CompOp
  version : List Nat
  deriving Repr, DecidableEq

/-- A parsed requirement: a package name, a conjunction of version
specifiers, and an optional environment marker. -/
structure Requirement where
  name : String
  specs : List (CompOp × List Nat)
  marker : Option Marker
  deriving Repr, DecidableEq

/-- A version tuple satisfies a specifier list iff it satisfies every
specifier in it. -/
def satisfiesSpec (v : List Nat) (specs : List (CompOp × List Nat)) : Bool :=
  specs.all fun s => evalCompOp s.1 v s.2

/-- Evaluate a `python_version` marker in an environment whose running
python version is `pv`. -/
def evalMarker (pv : List Nat) (m : Marker) : Bool :=
  evalCompOp m.op pv m.version

/-! ## Parsing the requirement strings

The parser works on `List Char` with structural recursion so that it
reduces inside the kernel. -/

/-- Split a character list on a separator character. -/
def splitOnChar (c : Char) : List Char → List (List Char)
  | [] => [[]]
  | x :: xs =>
    if x = c then
      [] :: splitOnChar c xs
    else
      match splitOnChar c xs with
      | [] => [[x]]
      | p :: ps => (x :: p) :: ps

/-- Strip leading and trailing spaces. -/
def trimSpaces (l : List Char) : List Char :=
  ((l.dropWhile (fun c => c = ' ')).reverse.dropWhile (fun c => c = ' ')).reverse

/-- Parse a nonempty list of decimal digits as a natural number. -/
def digitsToNat : List Char → Option Nat
  | [] => none
  | l =>
    if l.all Char.isDigit then
      some (l.foldl (fun n c => n * 10 + (c.toNat - 48)) 0)
    else
      none

/-- Parse a dotted numeric version such as `19.3.1` as a version tuple. -/
def parseVersion (l : List Char) : Option (List Nat) :=
  (splitOnChar '.' (trimSpaces l)).mapM digitsToNat

/-- Find the first occurrence of the two-character operator `a b` in a
character list and split around it. -/
def findSplit2 (a b : Char) : List Char → Option (List Char × List Char)
  | x :: y :: rest =>
    if x = a ∧ y = b then
      some ([], rest)
    else
      match findSplit2 a b (y :: rest) with
      | some (p, q) => some (x :: p, q)
      | none => none
  | _ => none

/-- Find the first occurrence of the one-character operator `a` in a
character list and split around it. -/
def findSplit1 (a : Char) : List Char → Option (List Char × List Char)
  | [] => none
  | x :: xs =>
    if x = a then
      some ([], xs)
    else
      match findSplit1 a xs with
      | some (p, q) => some (x :: p, q)
      | none => none

/-- Split a requirement-string fragment around its comparison operator, if
any: two-character operators are matched before one-character ones. -/
def splitOnOp (l : List Char) : Option (CompOp × List Char × List Char) :=
  match findSplit2 '=' '=' l with
  | some (p, q) => some (.eq, p, q)
  | none =>
  match findSplit2 '!' '=' l with
  | some (p, q) => some (.ne, p, q)
  | none =>
  match findSplit2 '>' '=' l with
  | some (p, q) => some (.ge, p, q)
  | none =>
  match findSplit2 '<' '=' l with
  | some (p, q) => some (.le, p, q)
  | none =>
  match findSplit1 '>' l with
  | some (p, q) => some (.gt, p, q)
  | none =>
  match findSplit1 '<' l with
  | some (p, q) => some (.lt, p, q)
  | none => none

/-- Parse the part of a requirement string before the `;`: a package name
optionally followed by one version specifier (the manifest never uses a
specifier conjunction). -/
def parseNameSpecs (l : List Char) : Option (String × List (CompOp × List Nat)) :=
  match splitOnOp l with
  | none => some (String.mk (trimSpaces l), [])
  | some (op, p, q) =>
    match parseVersion q with
    | some v => some (String.mk (trimSpaces p), [(op, v)])
    | none => none

/-- Strip one matching pair of single quotes around a character list. -/
def stripQuotes (l : List Char) : Option (List Char) :=
  match l with
  | '\x27' :: rest =>
    match rest.getLast? with
    | some '\x27' => some (rest.dropLast)
    | _ => none
  | _ => none

/-- Parse an environment marker `python_version OP 'X.Y'`. -/
def parseMarker (l : List Char) : Option Marker :=
  match splitOnOp l with
  | none => none
  | some (op, p, q) =>
    if trimSpaces p = "python_version".data then
      match stripQuotes (trimSpaces q) with
      | none => none
      | some ver =>
        match parseVersion ver with
        | some v => some { op := op, version := v }
        | none => none
    else
      none

/-- Parse a requirement string: the part before `;` is the name and
specifiers, the part after it (if present) is the environment marker. -/
def parseRequirement (s : String) : Option Requirement :=
  match splitOnChar ';' s.data with
  | [reqPart] =>
    match parseNameSpecs reqPart with
    | some (n, specs) => some { name := n, specs := specs, marker := none }
    | none => none
  | [reqPart, markerPart] =>
    match parseNameSpecs reqPart, parseMarker markerPart with
    | some (n, specs), some m => some { name := n, specs := specs, marker := some m }
    | _, _ => none
  | _ => none

/-- The parsed requirement list of a manifest (empty if any entry fails to
parse). -/
def parsedRequires (m : Manifest) : List Requirement :=
  (m.install_requires.mapM parseRequirement).getD []

/-- The dependency set required in an environment whose running python
version is `pv`: the declared requirements whose marker (if any) evaluates
to true there. -/
def requiredDeps (m : Manifest) (pv : List Nat) : List Requirement :=
  (parsedRequires m).filter fun r =>
    match r.marker with
    | none => true
    | some mk => evalMarker pv mk

/-! ## The external operations consuming the manifest

setup.py only declares data; reading, resolving and installing it is done
by external packaging tooling. The definitions below therefore model the
spec's description of that tooling. -/

/-- An evaluation environment as seen by the external packaging tooling:
the running python version (the input read by environment markers)
together with the kinds of input the spec lists (environment variables,
CLI flags, files, persisted state). -/
structure Env where
  pythonVersion : List Nat
  envVars : List (String × String)
  cliFlags : List String
  files : List (String × String)
  persistedState : List (String × String)
  deriving Repr, DecidableEq

/-- The installed state managed by the external installer: installed
packages (name and version) and registered executable script paths. -/
structure InstalledState where
  packages : List (String × List Nat)
  executables : List String
  deriving Repr, DecidableEq

/-- Insert an element at the end of a list unless an element with the same
key is already present. -/
def insertNew [DecidableEq β] (key : α → β) (acc : List α) (a : α) : List α :=
  if key a ∈ acc.map key then acc else acc ++ [a]

/-- Modelled from the spec: the external install operation consuming the
manifest (it is not implemented in this repository). It reads the manifest
once, installs each dependency required for the running python version
`pv` at the concrete version the external resolver `resolve` picks for its
name, and registers each declared script as an executable at its expected
path; entries already present are kept. -/
def install (m : Manifest) (pv : List Nat) (resolve : String → List Nat)
    (s : InstalledState) : InstalledState :=
  { packages :=
      ((requiredDeps m pv).map fun r => (r.name, resolve r.name)).foldl
        (insertNew Prod.fst) s.packages
  , executables := m.scripts.foldl (insertNew id) s.executables }

/-- The package metadata produced by evaluating the manifest. -/
structure PackageMetadata where
  name : String
  version : String
  deps : List Requirement
  scripts : List String
  deriving Repr, DecidableEq

/-- Modelled from the spec: a single evaluation of the manifest by the
external tooling (the manifest is read once and is declarative data). It
yields the package metadata — the declared name, version, the dependency
set required for the environment's python version, and the script list —
and leaves the installed state untouched. -/
def evalManifest (env : Env) (s : InstalledState) : PackageMetadata × InstalledState :=
  ( { name := setupManifest.name
    , version := setupManifest.version
    , deps := requiredDeps setupManifest env.pythonVersion
    , scripts := setupManifest.scripts }
  , s )

/-- Modelled from the spec: the metadata the manifest declares, as a
function of the evaluation environment. setup.py passes only literal
values to `setup` and reads nothing from the environment. -/
def declaredMetadata (_ : Env) : Manifest :=
  setupManifest

/-- Modelled from the spec: the ecosystem's dependency resolver raises a
version-conflict error exactly when no single assignment of a concrete
version to each package name satisfies all the requirements of the set
simultaneously; this predicate says the set resolves without conflict. -/
def resolvesWithoutConflict (reqs : List Requirement) : Prop :=
  ∃ assign : String → List Nat,
    ∀ r ∈ reqs, satisfiesSpec (assign r.name) r.specs = true

/-! ## Helper lemmas -/

/-- The parsed form of the manifest's requirement list. -/
theorem parsedRequires_setupManifest :
    parsedRequires setupManifest =
      [ ⟨"six", [], none⟩
      , ⟨"pip-tools", [(.eq, [3, 6, 1])], none⟩
      , ⟨"pip", [(.eq, [19, 3, 1])], none⟩
      , ⟨"mock", [(.ge, [2, 0, 0])], some ⟨.lt, [3]⟩⟩ ] := by
  decide

/-- The required dependency set for a running python version `pv`:
`mock` is kept exactly when `pv` is below version 3. -/
theorem requiredDeps_setupManifest (pv : List Nat) :
    requiredDeps setupManifest pv =
      cond (verLt pv [3])
        [ ⟨"six", [], none⟩
        , ⟨"pip-tools", [(.eq, [3, 6, 1])], none⟩
        , ⟨"pip", [(.eq, [19, 3, 1])], none⟩
        , ⟨"mock", [(.ge, [2, 0, 0])], some ⟨.lt, [3]⟩⟩ ]
        [ ⟨"six", [], none⟩
        , ⟨"pip-tools", [(.eq, [3, 6, 1])], none⟩
        , ⟨"pip", [(.eq, [19, 3, 1])], none⟩ ] := by
  rw [requiredDeps, parsedRequires_setupManifest]
  cases hv : verLt pv [3] <;>
    simp [List.filter, evalMarker, evalCompOp, hv]

theorem insertNew_of_mem [DecidableEq β] (key : α → β) (acc : List α) (a : α)
    (h : key a ∈ acc.map key) : insertNew key acc a = acc := by
  simp [insertNew, h]

theorem mem_map_insertNew [DecidableEq β] (key : α → β) (acc : List α) (a : α) (b : β)
    (h : b ∈ acc.map key) : b ∈ (insertNew key acc a).map key := by
  unfold insertNew
  split
  · exact h
  · simp [h]

theorem key_mem_map_insertNew [DecidableEq β] (key : α → β) (acc : List α) (a : α) :
    key a ∈ (insertNew key acc a).map key := by
  unfold insertNew
  split
  next h => exact h
  next h => simp

theorem mem_map_foldl_insertNew_of_mem [DecidableEq β] (key : α → β) (xs : List α) (b : β) :
    ∀ acc : List α, b ∈ acc.map key → b ∈ (xs.foldl (insertNew key) acc).map key := by
  induction xs with
  | nil => intro acc h; exact h
  | cons x xs ih =>
    intro acc h
    rw [List.foldl_cons]
    exact ih (insertNew key acc x) (mem_map_insertNew key acc x b h)

theorem key_mem_map_foldl_insertNew [DecidableEq β] (key : α → β) (xs : List α) (x : α)
    (hx : x ∈ xs) : ∀ acc : List α, key x ∈ (xs.foldl (insertNew key) acc).map key := by
  induction xs with
  | nil => cases hx
  | cons y ys ih =>
    intro acc
    rw [List.foldl_cons]
    rcases List.mem_cons.mp hx with h | h
    · subst h
      exact mem_map_foldl_insertNew_of_mem key ys (key x) (insertNew key acc x)
        (key_mem_map_insertNew key acc x)
    · exact ih h (insertNew key acc y)

theorem foldl_insertNew_of_all_mem [DecidableEq β] (key : α → β) (xs : List α) :
    ∀ acc : List α, (∀ x ∈ xs, key x ∈ acc.map key) →
      xs.foldl (insertNew key) acc = acc := by
  induction xs with
  | nil => intro acc _; rfl
  | cons y ys ih =>
    intro acc h
    rw [List.foldl_cons, insertNew_of_mem key acc y (h y (List.mem_cons_self y ys))]
    exact ih acc fun x hx => h x (List.mem_cons_of_mem y hx)

theorem foldl_insertNew_idem [DecidableEq β] (key : α → β) (xs : List α) (acc : List α) :
    xs.foldl (insertNew key) (xs.foldl (insertNew key) acc) =
      xs.foldl (insertNew key) acc :=
  foldl_insertNew_of_all_mem key xs _ fun x hx =>
    key_mem_map_foldl_insertNew key xs x hx acc

/-! ## The claims -/

/-- C1: the manifest's declared dependency list is exactly the ordered
sequence `six`, `pip-tools` constrained to exactly version 3.6.1, `pip`
constrained to exactly version 19.3.1, and `mock` with a conditional
environment marker, in that order and with no other entries. -/
theorem declared_dependency_list_exact :
    setupManifest.install_requires =
      [ "six", "pip-tools==3.6.1", "pip==19.3.1",
        "mock>=2.0.0; python_version < \x273\x27" ] ∧
    setupManifest.install_requires.mapM parseRequirement =
      some
        [ ⟨"six", [], none⟩
        , ⟨"pip-tools", [(.eq, [3, 6, 1])], none⟩
        , ⟨"pip", [(.eq, [19, 3, 1])], none⟩
        , ⟨"mock", [(.ge, [2, 0, 0])], some ⟨.lt, [3]⟩⟩ ] := by
  decide

/-- C2: `mock` is in the required dependency set exactly for the
environments whose python version is below 3; for a python version of 3 or
more it is not required. -/
theorem mock_required_iff_python_below_three (pv : List Nat) :
    ((requiredDeps setupManifest pv).any fun r => r.name == "mock") = verLt pv [3] := by
  rw [requiredDeps_setupManifest]
  cases hv : verLt pv [3] <;> decide

/-- C3: the declared dependency set is simultaneously satisfiable: a
single assignment of versions (pip-tools at 3.6.1, pip at 19.3.1, 2.0.0
for the rest) satisfies every declared constraint at once, so the
resolver raises no version-conflict error. -/
theorem declared_deps_resolve_without_conflict :
    resolvesWithoutConflict (parsedRequires setupManifest) := by
  refine ⟨fun n =>
    if n = "pip-tools" then [3, 6, 1] else if n = "pip" then [19, 3, 1] else [2, 0, 0], ?_⟩
  decide

/-- C4: the manifest declares exactly one script entry point, the file
path `pip-tools-compile`, and after any install it is registered as an
executable at its expected path. -/
theorem script_declared_and_registered :
    setupManifest.scripts = ["pip-tools-compile"] ∧
    ∀ (pv : List Nat) (resolve : String → List Nat) (s : InstalledState),
      "pip-tools-compile" ∈ (install setupManifest pv resolve s).executables := by
  refine ⟨rfl, fun pv resolve s => ?_⟩
  have h := key_mem_map_foldl_insertNew id setupManifest.scripts
    "pip-tools-compile" (by decide) s.executables
  simpa using h

/-- C5: installing is idempotent: a second install run with identical
inputs leaves the installed state produced by the first run unchanged. -/
theorem install_idempotent (pv : List Nat) (resolve : String → List Nat)
    (s : InstalledState) :
    install setupManifest pv resolve (install setupManifest pv resolve s) =
      install setupManifest pv resolve s := by
  simp only [install]
  rw [foldl_insertNew_idem, foldl_insertNew_idem]

/-- C6: evaluating the manifest is deterministic and mutation-free: in a
given environment any two evaluations yield the same package metadata
whatever the prior installed state, and every evaluation returns the
installed state unchanged. -/
theorem eval_deterministic_and_mutation_free :
    (∀ (env : Env) (s1 s2 : InstalledState),
      (evalManifest env s1).1 = (evalManifest env s2).1) ∧
    (∀ (env : Env) (s : InstalledState), (evalManifest env s).2 = s) :=
  ⟨fun _ _ _ => rfl, fun _ _ => rfl⟩

/-- C7: the declared metadata does not depend on any environment input:
for any two evaluation environments — differing in environment variables,
CLI flags, files, persisted state, or even the python version — the
declared metadata is identical. -/
theorem declared_metadata_env_independent (e1 e2 : Env) :
    declaredMetadata e1 = declaredMetadata e2 :=
  rfl

/-- C8: the declared package name is exactly `pip-tools-compile` and the
script list consists of that single name. -/
theorem package_name_matches_script :
    setupManifest.name = "pip-tools-compile" ∧
    setupManifest.scripts = [setupManifest.name] :=
  ⟨rfl, rfl⟩

/-- C9: the declared package version is exactly the string `1.0`. -/
theorem package_version_is_one_point_zero :
    setupManifest.version = "1.0" :=
  rfl

/-- C10: as declared in the manifest, `six` carries no version specifier
(every version satisfies it) and `mock` carries only the lower bound
`>= 2.0.0` (a version satisfies it iff it is not below 2.0.0); each of the
two admits two satisfying versions that are not version-equal, so neither
is an exact pin. -/
theorem six_unconstrained_and_mock_lower_bound :
    (∀ r ∈ parsedRequires setupManifest, r.name = "six" →
      r.specs = [] ∧ ∀ v : List Nat, satisfiesSpec v r.specs = true) ∧
    (∀ r ∈ parsedRequires setupManifest, r.name = "mock" →
      r.specs = [(.ge, [2, 0, 0])] ∧
      ∀ v : List Nat, satisfiesSpec v r.specs = !verLt v [2, 0, 0]) ∧
    (∀ r ∈ parsedRequires setupManifest, r.name = "six" ∨ r.name = "mock" →
      ∃ v w : List Nat, verEq v w = false ∧
        satisfiesSpec v r.specs = true ∧ satisfiesSpec w r.specs = true) := by
  rw [parsedRequires_setupManifest]
  refine ⟨?_, ?_, ?_⟩ <;>
    · intro r hr
      rcases List.mem_cons.mp hr with rfl | hr
      on_goal 2 => rcases List.mem_cons.mp hr with rfl | hr
      on_goal 3 => rcases List.mem_cons.mp hr with rfl | hr
      on_goal 4 => rcases List.mem_cons.mp hr with rfl | hr
      on_goal 5 => cases hr
      all_goals intro hname
      all_goals first
        | exact absurd hname (by decide)
        | exact ⟨rfl, fun v => by simp [satisfiesSpec, evalCompOp]⟩
        | exact ⟨[1], [2], by decide, by decide, by decide⟩
        | exact ⟨[2], [3], by decide, by decide, by decide⟩

/-- Witness for C10 at concrete inputs: the parsed `six` requirement at
version 1.16.0 and the parsed `mock` requirement at versions 1.9 and 3. -/
theorem six_unconstrained_and_mock_lower_bound_witness :
    satisfiesSpec [1, 16, 0] [] = true ∧
    satisfiesSpec [1, 9] [(CompOp.ge, [2, 0, 0])] = !verLt [1, 9] [2, 0, 0] ∧
    satisfiesSpec [3] [(CompOp.ge, [2, 0, 0])] = !verLt [3] [2, 0, 0] :=
  ⟨(six_unconstrained_and_mock_lower_bound.1 ⟨"six", [], none⟩ (by decide) rfl).2
      [1, 16, 0],
   (six_unconstrained_and_mock_lower_bound.2.1
      ⟨"mock", [(.ge, [2, 0, 0])], some ⟨.lt, [3]⟩⟩ (by decide) rfl).2 [1, 9],
   (six_unconstrained_and_mock_lower_bound.2.1
      ⟨"mock", [(.ge, [2, 0, 0])], some ⟨.lt, [3]⟩⟩ (by decide) rfl).2 [3]⟩

end PipToolsCompile
